import Mathlib

/-!
Shallow embedding of the per-record flood damage computation in
"DOGAMI Hazus Flood Script v3p2.py" (function `flood_damage`, the record
loop at lines 352-840).  Python floats are modelled as rationals, nullable
values as `Option`, the dynamically typed DDF-id output (int in some
branches, string in others) as an explicit sum type, and `sys.exit(2)` /
uncaught exceptions as the `Except.error` case of the processor.
-/

namespace Hazus

/-- Python `str.strip()`: remove leading and trailing whitespace. -/
def pyStrip (s : String) : String :=
  ⟨((s.data.dropWhile Char.isWhitespace).reverse.dropWhile Char.isWhitespace).reverse⟩

/-- Python slice `s[:n]`. -/
def strTake (s : String) (n : Nat) : String := ⟨s.data.take n⟩

/-- Python slice `s[n:]` for a non-negative start index. -/
def strDrop (s : String) (n : Nat) : String := ⟨s.data.drop n⟩

/-- Python `int()` applied to a float: truncation toward zero. -/
def pyTrunc (q : ℚ) : ℤ := if q < 0 then ⌈q⌉ else ⌊q⌋

/-- Python `int()` applied to a string of digits (used on DDF id text). -/
def pyIntOfString (s : String) : Option ℤ := s.toInt?

/-! ## Occupancy key (script lines 388-418) -/

/-- Prefix of the SpecificOccupId, line 394:
`OC[:1]+OC[-(len(OC)-3):] if OC != 'REL1' else 'RE1'`.
For `len OC > 3` the negative-index slice is `OC[3:]`; for `len OC ≤ 3`
Python's index arithmetic makes it `OC[3-len:]`. -/
def sopre (OC : String) : String :=
  if OC = "REL1" then "RE1"
  else strTake OC 1 ++ (if OC.length > 3 then strDrop OC 3 else strDrop OC (3 - OC.length))

/-- Suffix, line 397: basement or no basement. -/
def sosuf (foundationType : String) : String :=
  if foundationType = "4" then "B" else "N"

/-- Middle character, lines 400-416.  In the RES1 branch the source writes
`str(numStories)` on the capped value; the value is whole there, and the
model renders it as the decimal digits of its integer value (the UDF
NumStories field is integer-typed in the Hazus schema). -/
def somid (OC : String) (numStories : ℚ) : String :=
  if strTake OC 4 = "RES3" then
    if numStories > 4 then "5" else if numStories > 2 then "3" else "1"
  else if strTake OC 4 = "RES1" then
    let ns := if numStories > 3 then (3 : ℚ) else numStories
    if ns - (pyTrunc ns : ℚ) = 0 then toString (pyTrunc ns) else "S"
  else if strTake OC 4 = "RES2" then "1"
  else
    if numStories > 6 then "H" else if numStories > 3 then "M" else "L"

/-- SpecificOccupId, line 418: `sopre + somid + sosuf`. -/
def specificOccupId (OC foundationType : String) (numStories : ℚ) : String :=
  sopre OC ++ somid OC numStories ++ sosuf foundationType

/-! ## Depth clamping, column keys, interpolation (lines 486-510, 576-582) -/

/-- Lines 489-490: `depth = 24 if depth > 24 else depth` then
`depth = -4 if depth < -4 else depth`. -/
def clampDepth (depth : ℚ) : ℚ :=
  let d1 := if depth > 24 then 24 else depth
  if d1 < -4 then -4 else d1

/-- Column key for a signed integer offset: marker `m` for negative,
`p` otherwise, then the absolute value (lines 505-510). -/
def signedKey (n : ℤ) : String :=
  (if n < 0 then "m" else "p") ++ toString n.natAbs

/-- Key l_index at the floor of the depth. -/
def lIndex (depth : ℚ) : String := signedKey ⌊depth⌋

/-- Key u_index at the ceiling of the depth. -/
def uIndex (depth : ℚ) : String := signedKey ⌈depth⌉

/-- Lines 576-582 (repeated verbatim at 658-664 and 735-741):
look up the percentages at the floor and ceiling keys of the (already
clamped) depth and interpolate with the fractional part. -/
def dmgValue (col : String → ℚ) (depth : ℚ) : ℚ :=
  let d_lower := col (lIndex depth)
  let d_upper := col (uIndex depth)
  let frac := depth - (⌊depth⌋ : ℚ)
  (d_lower + frac * (d_upper - d_lower)) / 100

/-! ## Content and inventory cost bases (lines 255-260, 421-455) -/

def Content_x_0p5 : List String :=
  ["RES1", "RES2", "RES3A", "RES3B", "RES3C", "RES3D", "RES3E", "RES3F",
   "RES4", "RES5", "RES6", "COM10"]

def Content_x_1p0 : List String :=
  ["COM1", "COM2", "COM3", "COM4", "COM5", "COM8", "COM9", "IND6",
   "AGR1", "REL1", "GOV1", "EDU1"]

def Content_x_1p5 : List String :=
  ["COM6", "COM7", "IND1", "IND2", "IND3", "IND4", "IND5", "GOV2", "EDU2"]

def Inventory_List : List String :=
  ["COM1", "COM2", "IND1", "IND2", "IND3", "IND4", "IND5", "IND6", "AGR1"]

/-- Line 424: content multiplier by occupancy class. -/
def CMult (OC : String) : ℚ :=
  if OC ∈ Content_x_0p5 then 1/2
  else if OC ∈ Content_x_1p0 then 1
  else if OC ∈ Content_x_1p5 then 3/2
  else 0

/-- Lines 425-430.  `uccost` is whether the ContentCost column exists;
`contentCostVal` is the field value for this record (`none` = null). -/
def contentCost (uccost : Bool) (contentCostVal : Option ℚ) (cost : ℚ) (OC : String) : ℚ :=
  let xt : ℚ := if uccost then (match contentCostVal with | none => -1 | some v => v) else -1
  if xt = -1 then cost * CMult OC else xt

/-- One row of `flBldgEconParamSalesAndInv.csv` (string data parsed to
numbers, as the source does with `float(...)`). -/
structure EconRow where
  Occupancy : String
  AnnualSalesPerSqFt : ℚ
  BusinessInvPctofSales : ℚ
deriving DecidableEq

/-- Run-ending events: `sys.exit(2)` calls and exceptions that reach the
outer `except` handler and terminate the processing pass. -/
inductive Abort where
  | bldgMiss (soid : String)
  | contMiss (soid : String)
  | invMiss (soid : String)
  | econMiss (oc : String)
  | debrisMiss (key : String)
  | restMiss (key : String)
  | badInt (s : String)
  | staleRow
deriving DecidableEq

/-- A break-on-first-match sequential scan, the shape of every lookup loop
in the script except the debris one (lines 438-447, 526-536, 564-569,
611-621, 647-652, 690-700, 723-728, 827-830). -/
def scanBreak {α : Type} (p : α → Bool) (tbl : List α) : Option α := tbl.find? p

/-- Lines 432-452.  `uicost` is whether the InvCost column exists.  The
`none` result of the economic-parameters scan leaves `icost` unassigned in
the source (a NameError on first use), modelled as an abort. -/
def inventoryCost (uicost : Bool) (invCostVal : Option ℚ) (OC : String) (area : ℚ)
    (iecon : List EconRow) : Except Abort ℚ :=
  let xt : ℚ := if uicost then (match invCostVal with | none => -1 | some v => v) else -1
  if OC ∈ Inventory_List ∧ xt = -1 then
    match scanBreak (fun r => r.Occupancy = OC) iecon with
    | some r => .ok (r.AnnualSalesPerSqFt * r.BusinessInvPctofSales * area / 100)
    | none => .error (.econMiss OC)
  else if xt > -1 then
    -- source line 450 re-reads `row.getValue(InvCost)`, which in this
    -- branch is necessarily the non-null value xt
    .ok xt
  else .ok 0

/-! ## Reference-table rows and the processing environment -/

/-- One row of a building/content/inventory DDF table.  `fnId` is the full
table id column (`BldgDmgFnID` / `ContDmgFnId` / `InvDmgFnId` depending on
family); `col` gives the depth-keyed percentage columns (the source reads
them with `float(ddf1[index])`). -/
structure DDFRow where
  fnId : String
  Occupancy : String
  SpecificOccupId : String
  DDF_ID : String
  col : String → ℚ

/-- One row of `flDebris_LUT.csv`. -/
structure DebrisRow where
  DebrisID : String
  Finishes : ℚ
  Structure : ℚ
  Foundation : ℚ
deriving DecidableEq

/-- One row of `flRsFnGBS_LUT.csv`. -/
structure RestRow where
  RestFnID : String
  Min_Restor_Days : ℤ
  Max_Restor_Days : ℤ
deriving DecidableEq

/-- The loaded lookup tables (lines 227-242). -/
structure Tables where
  bddf_lut_riverine : List DDFRow
  bddf_lut_coastalA : List DDFRow
  bddf_lut_coastalV : List DDFRow
  bddf_lut_full : List DDFRow
  cddf_lut_riverine : List DDFRow
  cddf_lut_coastalA : List DDFRow
  cddf_lut_coastalV : List DDFRow
  cddf_lut_full : List DDFRow
  iddf_lut_riverine : List DDFRow
  iddf_lut_full : List DDFRow
  iecon_lut : List EconRow
  debris_lut : List DebrisRow
  rest_lut : List RestRow

/-- The optional-column flags detected at lines 262-293, plus the QC flag. -/
structure Flags where
  QC_Warning : Bool
  CoastalZoneSupplied : Bool
  ubddf : Bool
  ucddf : Bool
  uiddf : Bool
  uccost : Bool
  uicost : Bool

/-- A DDF-id value as written to the output row: an integer in the
user-supplied-DDF and sentinel branches, the table's id string in the
default branches. -/
inductive IdVal where
  | num (n : ℤ)
  | str (s : String)
deriving DecidableEq

/-- The input fields of one UDF record read via `row.getValue` (the
identifier field, used only in messages, is omitted). -/
structure InRow where
  Depth_Grid : Option ℚ
  FirstFloorHt : ℚ
  OccupancyClass : String
  FoundationType : String
  NumStories : ℚ
  Area : ℚ
  Cost : ℚ
  ContentCost : Option ℚ
  InvCost : Option ℚ
  BldgDamageFnID : Option String
  ContDamageFnId : Option String
  InvDamageFnId : Option String
  flC : Option String

/-- The output fields written via `row.setValue` (GridName, constant per
pass, is omitted). -/
structure OutRec where
  flExp : ℤ
  Depth_in_Struc : Option ℚ
  SOID : String
  BDDF_ID : IdVal
  BldgDmgPct : ℚ
  BldgLossUSD : ℚ
  ContentCostUSD : ℚ
  CDDF_ID : IdVal
  ContDmgPct : ℚ
  ContentLossUSD : ℚ
  InventoryCostUSD : ℚ
  IDDF_ID : IdVal
  InvDmgPct : ℚ
  InventoryLossUSD : ℚ
  DebrisID : String
  Debris_Fin : Option ℚ
  Debris_Struc : Option ℚ
  Debris_Found : Option ℚ
  Debris_Tot : Option ℚ
  Restor_Days_Min : ℤ
  Restor_Days_Max : ℤ
deriving DecidableEq

/-- Result of processing one record: the written row plus any recorded
non-fatal messages.  In the modelled paths every `arcpy.AddError` is
followed by run termination and the QC-gated advisory warnings change no
state, so a completed record carries no messages. -/
structure ProcResult where
  row : OutRec
  logs : List String
deriving DecidableEq

/-- The debris lookup loop, lines 793-796: a full scan with NO break, so a
later matching row overwrites an earlier one.  A `none` result leaves the
stale `ddf1` (a DDF row without debris columns) in place and the
`float(ddf1['Finishes'])` read at line 797 raises, ending the run. -/
def debrisScan (tbl : List DebrisRow) (key : String) : Option DebrisRow :=
  tbl.foldl (fun acc r => if r.DebrisID = key then some r else acc) none

/-! ## Damage-function resolution (lines 515-574, 600-655, 682-753) -/

/-- The guard `if QC_Warning and BID is not None and BID != '' and int(BID)>0`
(lines 544, 629, 710): when the first three conjuncts hold, Python
evaluates `int(BID)`, and a non-numeric id raises, ending the run. -/
def qcBadIdCheck (f : Flags) (BID : Option String) : Except Abort Unit :=
  match BID with
  | none => .ok ()
  | some b =>
    if f.QC_Warning ∧ b ≠ "" then
      match pyIntOfString b with
      | none => .error (.badInt b)
      | some _ => .ok ()
    else .ok ()

/-- Default building table selection, lines 556-561. -/
def lutForBldg (f : Flags) (t : Tables) (OC CZC : String) : List DDFRow :=
  if f.CoastalZoneSupplied ∧ strTake OC 3 = "RES" then
    let b1 := if CZC = "CAE" then t.bddf_lut_coastalA else t.bddf_lut_riverine
    if CZC = "VE" ∨ CZC = "V" then t.bddf_lut_coastalV else b1
  else t.bddf_lut_riverine

/-- Default content table selection, lines 640-645. -/
def lutForCont (f : Flags) (t : Tables) (OC CZC : String) : List DDFRow :=
  if f.CoastalZoneSupplied ∧ strTake OC 3 = "RES" then
    let c1 := if CZC = "CAE" then t.cddf_lut_coastalA else t.cddf_lut_riverine
    if CZC = "VE" ∨ CZC = "V" then t.cddf_lut_coastalV else c1
  else t.cddf_lut_riverine

/-- Building default-table lookup, lines 541-574: scan for the occupancy
key; on a miss, `arcpy.AddError` then `sys.exit(2)`. -/
def bldgDefault (f : Flags) (t : Tables) (BID : Option String) (OC SOID CZC : String) :
    Except Abort (DDFRow × IdVal) :=
  match qcBadIdCheck f BID with
  | .error e => .error e
  | .ok _ =>
    match scanBreak (fun r => r.SpecificOccupId = SOID) (lutForBldg f t OC CZC) with
    | some r => .ok (r, .str r.DDF_ID)
    | none => .error (.bldgMiss SOID)

/-- Building DDF resolution, lines 517-574.  `BID` is the user value when
the column exists, else `None` (line 517). -/
def bldgResolve (f : Flags) (t : Tables) (BID : Option String) (OC SOID CZC : String) :
    Except Abort (DDFRow × IdVal) :=
  match BID with
  | some b =>
    if b ≠ "" ∧ b ∈ t.bddf_lut_full.map (fun r => r.fnId) then
      match scanBreak (fun r => r.fnId = b) t.bddf_lut_full with
      | some r =>
        match pyIntOfString b with
        | some n => .ok (r, .num n)
        | none => .error (.badInt b)
      | none => .error .staleRow  -- unreachable: membership guarantees a hit
    else bldgDefault f t (some b) OC SOID CZC
  | none => bldgDefault f t none OC SOID CZC

/-- Content default-table lookup, lines 626-672.  On a miss there is no
`sys.exit`: `arcpy.AddError` is recorded (line 655), the interpolation at
660-664 runs on the stale building-phase row (the `_stale` argument), and
`AddWarning` fires at 668 — but line 670 (`CDDF_ID = LR = bldg_loss =
-9999`) rebinds the CDDF_ID FIELD-NAME variable to the integer -9999, so
`row.setValue(CDDF_ID, ddf_id)` at line 672 raises, the function-wide
`except` handler catches it, and the run terminates: the record does not
continue and no content fields are written.  (Line 669 also clobbers
SpecificOccupId to "XXXX".)  The miss is therefore modelled as an abort. -/
def contDefault (f : Flags) (t : Tables) (BID : Option String) (OC SOID CZC : String)
    (_stale : DDFRow × IdVal) : Except Abort ((DDFRow × IdVal) × List String) :=
  match qcBadIdCheck f BID with
  | .error e => .error e
  | .ok _ =>
    match scanBreak (fun r => r.SpecificOccupId = SOID) (lutForCont f t OC CZC) with
    | some r => .ok ((r, .str r.DDF_ID), [])
    | none => .error (.contMiss SOID)

/-- Content DDF resolution, lines 602-655. -/
def contResolve (f : Flags) (t : Tables) (BID : Option String) (OC SOID CZC : String)
    (stale : DDFRow × IdVal) : Except Abort ((DDFRow × IdVal) × List String) :=
  match BID with
  | some b =>
    if b ≠ "" ∧ b ∈ t.cddf_lut_full.map (fun r => r.fnId) then
      match scanBreak (fun r => r.fnId = b) t.cddf_lut_full with
      | some r =>
        match pyIntOfString b with
        | some n => .ok ((r, .num n), [])
        | none => .error (.badInt b)
      | none => .error .staleRow  -- unreachable: membership guarantees a hit
    else contDefault f t (some b) OC SOID CZC stale
  | none => contDefault f t none OC SOID CZC stale

/-- Inventory default lookup, lines 707-753: only occupancy classes in
`Inventory_List` have a default inventory DDF; for them a miss calls
`sys.exit(2)` (lines 729-733); otherwise damage and id are zero. -/
def invDefault (f : Flags) (t : Tables) (BID : Option String) (OC SOID : String)
    (depth : ℚ) : Except Abort (ℚ × IdVal) :=
  match qcBadIdCheck f BID with
  | .error e => .error e
  | .ok _ =>
    if OC ∈ Inventory_List then
      match scanBreak (fun r => r.SpecificOccupId = SOID) t.iddf_lut_riverine with
      | some r => .ok (dmgValue r.col depth, .str r.DDF_ID)
      | none => .error (.invMiss SOID)
    else .ok (0, .num 0)

/-- Inventory DDF resolution, lines 682-753 (the full-table branch computes
the damage in place, lines 701-704). -/
def invResolve (f : Flags) (t : Tables) (BID : Option String) (OC SOID : String)
    (depth : ℚ) : Except Abort (ℚ × IdVal) :=
  match BID with
  | some b =>
    if b ≠ "" ∧ b ∈ t.iddf_lut_full.map (fun r => r.fnId) then
      match scanBreak (fun r => r.fnId = b) t.iddf_lut_full with
      | some r =>
        match pyIntOfString b with
        | some n => .ok (dmgValue r.col depth, .num n)
        | none => .error (.badInt b)
      | none => .error .staleRow  -- unreachable: membership guarantees a hit
    else invDefault f t (some b) OC SOID depth
  | none => invDefault f t none OC SOID depth

/-! ## Debris and restoration keys (lines 775-836) -/

/-- Line 781: foundation group. -/
def fndGroup (foundationType : String) : String :=
  if foundationType = "4" ∨ foundationType = "7" then "SG" else "FT"

/-- Depth suffix of the debris key, lines 783-790.  Note the RES1-basement
first test is a strict `depth < -4`. -/
def debrisDsuf (OC foundationType : String) (depth : ℚ) : String :=
  if OC = "RES1" ∧ foundationType = "4" then
    if depth < -4 then "-8" else if depth < 0 then "-4" else if depth < 4 then "0"
    else if depth < 6 then "4" else if depth < 8 then "6" else "8"
  else
    if depth < 1 then "0" else if depth < 4 then "1" else if depth < 8 then "4"
    else if depth < 12 then "8" else "12"

/-- Line 791: composite debris key. -/
def debrisKey (OC foundationType : String) (depth : ℚ) : String :=
  let bsm := if OC = "RES1" ∧ foundationType = "4" then "B" else "NB"
  OC ++ bsm ++ fndGroup foundationType ++ debrisDsuf OC foundationType depth

/-- Depth suffix of the restoration key, lines 824-825. -/
def restDsuf (depth : ℚ) : String :=
  if depth < 0 then "0" else if depth < 1 then "1" else if depth < 4 then "4"
  else if depth < 8 then "8" else if depth < 12 then "12" else "24"

/-! ## The record processor (lines 352-840) -/

/-- The not-exposed output row, lines 459-477. -/
def notExposedRow (soid : String) (ccost icost : ℚ) : OutRec :=
  { flExp := 0, Depth_in_Struc := none, SOID := soid,
    BDDF_ID := .num 0, BldgDmgPct := 0, BldgLossUSD := 0,
    ContentCostUSD := ccost, CDDF_ID := .num 0, ContDmgPct := 0, ContentLossUSD := 0,
    InventoryCostUSD := icost, IDDF_ID := .num 0, InvDmgPct := 0, InventoryLossUSD := 0,
    DebrisID := "", Debris_Fin := none, Debris_Struc := none, Debris_Found := none,
    Debris_Tot := none, Restor_Days_Min := 0, Restor_Days_Max := 0 }

/-- The exposed branch, lines 478-836.  `depth0` is the unclamped adjusted
depth (recorded at line 481); clamping is applied before any lookup key is
built.  The `if depth is not None` guards at 775 and 822 are always true
in this branch and are omitted. -/
def exposedCase (f : Flags) (t : Tables) (rec : InRow)
    (OC foundationType SOID0 CZC : String) (area ccost icost depth0 : ℚ) :
    Except Abort ProcResult :=
  let depth := clampDepth depth0
  let BIDb := if f.ubddf then rec.BldgDamageFnID else none
  match bldgResolve f t BIDb OC SOID0 CZC with
  | .error e => .error e
  | .ok (bRow, bId) =>
    let bdamage := dmgValue bRow.col depth
    let bldg_loss := bdamage * rec.Cost
    let BIDc := if f.ucddf then rec.ContDamageFnId else none
    match contResolve f t BIDc OC SOID0 CZC (bRow, bId) with
    | .error e => .error e
    | .ok ((cRow, cId), clogs) =>
      let cdamage := dmgValue cRow.col depth
      let content_loss := cdamage * ccost
      let BIDi := if f.uiddf then rec.InvDamageFnId else none
      match invResolve f t BIDi OC SOID0 depth with
      | .error e => .error e
      | .ok (idamage, iId) =>
        let inventory_loss := idamage * icost
        let dkey := debrisKey OC foundationType depth
        match debrisScan t.debris_lut dkey with
        | none => .error (.debrisMiss dkey)
        | some dRow =>
          let dfin := area * dRow.Finishes / 1000
          let dstruc := area * dRow.Structure / 1000
          let dfound := area * dRow.Foundation / 1000
          let dtot := dfin + dstruc + dfound
          let rkey := OC ++ restDsuf depth
          match scanBreak (fun r => r.RestFnID = rkey) t.rest_lut with
          | none => .error (.restMiss rkey)
          | some rRow =>
            let out : OutRec :=
              { flExp := 1, Depth_in_Struc := some depth0, SOID := SOID0,
                BDDF_ID := bId, BldgDmgPct := bdamage * 100, BldgLossUSD := bldg_loss,
                ContentCostUSD := ccost, CDDF_ID := cId, ContDmgPct := cdamage * 100,
                ContentLossUSD := content_loss,
                InventoryCostUSD := icost, IDDF_ID := iId, InvDmgPct := idamage * 100,
                InventoryLossUSD := inventory_loss,
                DebrisID := dkey, Debris_Fin := some dfin, Debris_Struc := some dstruc,
                Debris_Found := some dfound, Debris_Tot := some dtot,
                Restor_Days_Min := rRow.Min_Restor_Days,
                Restor_Days_Max := rRow.Max_Restor_Days }
            .ok { row := out, logs := clogs }

/-- One iteration of the record loop, lines 352-840: adjust depth (372),
trim the raw codes (378-386), build the occupancy key (394-419), compute
both cost bases (421-455), then branch on exposure (459). -/
def processRecord (f : Flags) (t : Tables) (rec : InRow) : Except Abort ProcResult :=
  let OC := pyStrip rec.OccupancyClass
  let foundationType := pyStrip rec.FoundationType
  let CZC := if f.CoastalZoneSupplied then
      (match rec.flC with | none => "" | some s => pyStrip s) else ""
  let SOID0 := specificOccupId OC foundationType rec.NumStories
  let ccost := contentCost f.uccost rec.ContentCost rec.Cost OC
  match inventoryCost f.uicost rec.InvCost OC rec.Area t.iecon_lut with
  | .error e => .error e
  | .ok icost =>
    match rec.Depth_Grid with
    | none => .ok { row := notExposedRow SOID0 ccost icost, logs := [] }
    | some rastervalue =>
      let depth0 := rastervalue - rec.FirstFloorHt
      if depth0 < -500 then .ok { row := notExposedRow SOID0 ccost icost, logs := [] }
      else exposedCase f t rec OC foundationType SOID0 CZC rec.Area ccost icost depth0

/-! ## Concrete fixtures used by witnesses and counterexamples -/

/-- All optional columns absent, QC warnings off. -/
def offFlags : Flags :=
  { QC_Warning := false, CoastalZoneSupplied := false, ubddf := false, ucddf := false,
    uiddf := false, uccost := false, uicost := false }

/-- All tables empty. -/
def emptyTables : Tables :=
  { bddf_lut_riverine := [], bddf_lut_coastalA := [], bddf_lut_coastalV := [],
    bddf_lut_full := [], cddf_lut_riverine := [], cddf_lut_coastalA := [],
    cddf_lut_coastalV := [], cddf_lut_full := [], iddf_lut_riverine := [],
    iddf_lut_full := [], iecon_lut := [], debris_lut := [], rest_lut := [] }

/-- A default building DDF row matching occupancy key "C1LN". -/
def bRowX : DDFRow :=
  { fnId := "11", Occupancy := "COM1", SpecificOccupId := "C1LN", DDF_ID := "B7",
    col := fun _ => 10 }

/-- A default content DDF row matching occupancy key "C1LN". -/
def cRowX : DDFRow :=
  { fnId := "12", Occupancy := "COM1", SpecificOccupId := "C1LN", DDF_ID := "C7",
    col := fun _ => 20 }

/-- Tables with building and content rows for "C1LN", an economic row for
"COM1", and an EMPTY default inventory table. -/
def tablesX : Tables :=
  { bddf_lut_riverine := [bRowX], bddf_lut_coastalA := [], bddf_lut_coastalV := [],
    bddf_lut_full := [], cddf_lut_riverine := [cRowX], cddf_lut_coastalA := [],
    cddf_lut_coastalV := [], cddf_lut_full := [], iddf_lut_riverine := [],
    iddf_lut_full := [],
    iecon_lut := [{ Occupancy := "COM1", AnnualSalesPerSqFt := 10,
                    BusinessInvPctofSales := 50 }],
    debris_lut := [], rest_lut := [] }

/-- An exposed "COM1" record (depth 2) with no user-supplied ids or costs. -/
def recX : InRow :=
  { Depth_Grid := some 2, FirstFloorHt := 0, OccupancyClass := "COM1",
    FoundationType := "1", NumStories := 1, Area := 100, Cost := 100,
    ContentCost := none, InvCost := none, BldgDamageFnID := none,
    ContDamageFnId := none, InvDamageFnId := none, flC := none }

/-- Tables sharing the economic-parameters table of `tablesX` but with
every damage-function, debris and restoration table empty. -/
def tablesX0 : Tables := { emptyTables with iecon_lut := tablesX.iecon_lut }

/-- A record with no sampled elevation (null raster value). -/
def recNE : InRow :=
  { Depth_Grid := none, FirstFloorHt := 0, OccupancyClass := "RES4",
    FoundationType := "1", NumStories := 1, Area := 200, Cost := 100,
    ContentCost := none, InvCost := none, BldgDamageFnID := none,
    ContDamageFnId := none, InvDamageFnId := none, flC := none }

/-! ## Claim theorems -/

/-- C1: for every damage-function row (column map) and every depth, the
interpolated loss ratio is computed on the depth clamped to [-4, 24]
(out-of-range depths are moved to the nearest bound), reading the
percentage at the floor key and the ceiling key of the clamped depth and
returning (lower + frac * (upper - lower)) / 100 with frac the fractional
part; for a depth in (-1, 0) the ceiling key is the non-negative-marker
key "p0" (and the floor key "m1"). -/
theorem C1_interpolation (col : String → ℚ) (d : ℚ) :
    dmgValue col (clampDepth d) =
      (col (lIndex (clampDepth d)) +
        (clampDepth d - (⌊clampDepth d⌋ : ℚ)) *
          (col (uIndex (clampDepth d)) - col (lIndex (clampDepth d)))) / 100 ∧
    (d < -4 → clampDepth d = -4) ∧
    (24 < d → clampDepth d = 24) ∧
    (-4 ≤ d → d ≤ 24 → clampDepth d = d) ∧
    (-1 < d → d < 0 → uIndex (clampDepth d) = "p0" ∧ lIndex (clampDepth d) = "m1") := by
  refine ⟨rfl, ?_, ?_, ?_, ?_⟩
  · intro h
    have h24 : ¬ d > 24 := by linarith
    simp only [clampDepth, if_neg h24, if_pos h]
  · intro h
    have : ¬ (24 : ℚ) < -4 := by norm_num
    simp only [clampDepth, if_pos h, if_neg this]
  · intro h1 h2
    have hgt : ¬ d > 24 := not_lt.mpr h2
    have hlt : ¬ d < -4 := not_lt.mpr h1
    simp only [clampDepth, if_neg hgt, if_neg hlt]
  · intro h1 h2
    have hc : clampDepth d = d := by
      have hgt : ¬ d > 24 := by norm_num; linarith
      have hlt : ¬ d < -4 := by norm_num; linarith
      simp only [clampDepth, if_neg hgt, if_neg hlt]
    have hceil : ⌈d⌉ = 0 := Int.ceil_eq_zero_iff.mpr ⟨h1, le_of_lt h2⟩
    have hfloor : ⌊d⌋ = -1 := by
      rw [Int.floor_eq_iff]
      constructor
      · push_cast; linarith
      · push_cast; linarith
    constructor
    · rw [hc, uIndex, hceil]; rfl
    · rw [hc, lIndex, hfloor]; rfl

/-- Witness for C1 at concrete inputs: depth -1/2 exercises the (-1, 0)
boundary case and depth 30 the upper clamp. -/
theorem C1_interpolation_witness :
    uIndex (clampDepth (-1/2)) = "p0" ∧ lIndex (clampDepth (-1/2)) = "m1" ∧
    clampDepth 30 = 24 ∧ clampDepth (-10) = -4 :=
  ⟨((C1_interpolation (fun _ => 0) (-1/2)).2.2.2.2 (by norm_num) (by norm_num)).1,
   ((C1_interpolation (fun _ => 0) (-1/2)).2.2.2.2 (by norm_num) (by norm_num)).2,
   (C1_interpolation (fun _ => 0) 30).2.2.1 (by norm_num),
   (C1_interpolation (fun _ => 0) (-10)).2.1 (by norm_num)⟩

/-- C4 counterexample: the occupancy-key resolver applied to class "REL1",
foundation "1", one story returns "RE1LN", not the claimed "RE11N" — the
middle character comes from the general (non-RES) branch, which maps one
story to "L", never to "1". -/
theorem C4_counterexample :
    specificOccupId "REL1" "1" 1 = "RE1LN" ∧ "RE1LN" ≠ "RE11N" := by
  exact ⟨rfl, by decide⟩

/-- C4 amended: the resolver applied to ("REL1", "1", 1) returns "RE1LN":
the fixed irregular prefix "RE1", middle "L" (the general low-rise branch
for at most 3 stories), and suffix "N" for non-basement. -/
theorem C4_amended :
    specificOccupId "REL1" "1" 1 = "RE1LN" ∧
    sopre "REL1" = "RE1" ∧ somid "REL1" 1 = "L" ∧ sosuf "1" = "N" := by
  exact ⟨rfl, rfl, rfl, rfl⟩

/-- C5 counterexample: with the override column present and a supplied
content cost of exactly -1 (present and non-null), the content cost basis
is not the supplied value: for cost 100 and class "RES1" it is
100 * 0.5 = 50, not -1. -/
theorem C5_counterexample :
    contentCost true (some (-1)) 100 "RES1" = 50 ∧ (50 : ℚ) ≠ -1 := by
  constructor
  · norm_num [contentCost, CMult, Content_x_0p5]
  · norm_num

/-- C5 amended: the content cost basis equals the user-supplied value
verbatim (including zero) whenever the override column exists and the
value is present, non-null, AND not exactly -1; when the column is
absent, the value null, or the value exactly -1, it is buildingCost times
the occupancy multiplier (0.5 / 1.0 / 1.5 by the three fixed sets, 0
otherwise). -/
theorem C5_amended (uccost : Bool) (val : Option ℚ) (cost : ℚ) (OC : String) :
    (∀ v : ℚ, v ≠ -1 → contentCost true (some v) cost OC = v) ∧
    (contentCost false val cost OC = cost * CMult OC) ∧
    (contentCost uccost none cost OC = cost * CMult OC) ∧
    (contentCost uccost (some (-1)) cost OC = cost * CMult OC) ∧
    (OC ∈ Content_x_0p5 → CMult OC = 1/2) ∧
    (OC ∉ Content_x_0p5 → OC ∈ Content_x_1p0 → CMult OC = 1) ∧
    (OC ∉ Content_x_0p5 → OC ∉ Content_x_1p0 → OC ∈ Content_x_1p5 → CMult OC = 3/2) ∧
    (OC ∉ Content_x_0p5 → OC ∉ Content_x_1p0 → OC ∉ Content_x_1p5 → CMult OC = 0) := by
  refine ⟨?_, ?_, ?_, ?_, ?_, ?_, ?_, ?_⟩
  · intro v hv
    simp [contentCost, hv]
  · simp [contentCost]
  · cases uccost <;> simp [contentCost]
  · cases uccost <;> simp [contentCost]
  · intro h; simp [CMult, h]
  · intro h1 h2; simp [CMult, h1, h2]
  · intro h1 h2 h3; simp [CMult, h1, h2, h3]
  · intro h1 h2 h3; simp [CMult, h1, h2, h3]

/-- Witness for C5 amended: a supplied value 7 is used verbatim; with the
column absent the default 100 * 0.5 = 50 applies for "RES1". -/
theorem C5_amended_witness :
    contentCost true (some 7) 100 "RES1" = 7 ∧
    contentCost false (some 7) 100 "RES1" = 50 := by
  constructor
  · exact (C5_amended true (some 7) 100 "RES1").1 7 (by norm_num)
  · have h := (C5_amended false (some 7) 100 "RES1").2.1
    rw [h]
    norm_num [CMult, Content_x_0p5]

/-- C6 counterexample: with an existing override of -1/2 (not ≥ 0) for
class "COM1" (in the default-inventory set) and an economic-parameters
row giving the formula value 10 * 50 * 200 / 100 = 1000, the code uses
the override verbatim: the cost basis is -1/2, which is neither the
formula value, nor 0, nor a value ≥ 0. -/
theorem C6_counterexample :
    inventoryCost true (some (-1/2)) "COM1" 200
        [{ Occupancy := "COM1", AnnualSalesPerSqFt := 10, BusinessInvPctofSales := 50 }] =
      .ok (-1/2) ∧
    (10 : ℚ) * 50 * 200 / 100 = 1000 ∧ ((-1/2 : ℚ) ≠ 1000) ∧
    ¬ ((-1/2 : ℚ) ≥ 0) ∧ "COM1" ∈ Inventory_List := by
  refine ⟨?_, by norm_num, by norm_num, by norm_num, by simp [Inventory_List]⟩
  norm_num [inventoryCost, Inventory_List]

/-- C6 amended: the inventory cost basis is the user-supplied value
whenever the override exists, is non-null, and is strictly greater
than -1 (so negative values in (-1, 0) are used verbatim); it is the
economic-parameters formula grossSales * invPercent * area / 100 when the
occupancy class is in the default-inventory set and the override is
absent, null, or exactly -1; and it is 0 otherwise (class outside the set
with no usable override, or an override strictly below -1). -/
theorem C6_amended (uicost : Bool) (val : Option ℚ) (OC : String) (area : ℚ)
    (iecon : List EconRow) :
    (∀ v : ℚ, v > -1 → inventoryCost true (some v) OC area iecon = .ok v) ∧
    (∀ r : EconRow, OC ∈ Inventory_List →
      (uicost = false ∨ val = none ∨ val = some (-1)) →
      scanBreak (fun q => q.Occupancy = OC) iecon = some r →
      inventoryCost uicost val OC area iecon =
        .ok (r.AnnualSalesPerSqFt * r.BusinessInvPctofSales * area / 100)) ∧
    (OC ∉ Inventory_List → (uicost = false ∨ val = none ∨ val = some (-1)) →
      inventoryCost uicost val OC area iecon = .ok 0) ∧
    (∀ v : ℚ, v < -1 → inventoryCost true (some v) OC area iecon = .ok 0) := by
  refine ⟨?_, ?_, ?_, ?_⟩
  · intro v hv
    have hne : v ≠ -1 := by intro h; rw [h] at hv; exact lt_irrefl _ hv
    simp [inventoryCost, hne, hv]
  · intro r hOC hxt hscan
    have hx : (if uicost then (match val with | none => (-1 : ℚ) | some v => v) else -1) = -1 := by
      rcases hxt with h | h | h
      · simp [h]
      · subst h; cases uicost <;> simp
      · subst h; cases uicost <;> simp
    simp only [inventoryCost, hx]
    rw [if_pos ⟨hOC, trivial⟩, hscan]
  · intro hOC hxt
    have hx : (if uicost then (match val with | none => (-1 : ℚ) | some v => v) else -1) = -1 := by
      rcases hxt with h | h | h
      · simp [h]
      · subst h; cases uicost <;> simp
      · subst h; cases uicost <;> simp
    simp only [inventoryCost, hx]
    rw [if_neg (by simp [hOC]), if_neg (by norm_num)]
  · intro v hv
    have hne : v ≠ -1 := by intro h; rw [h] at hv; exact lt_irrefl _ hv
    have hng : ¬ v > -1 := by linarith
    simp [inventoryCost, hne, hng]

/-- Witness for C6 amended: an override of 5 is used; with no override
column, class "COM1" gets the formula value 1000; class "RES1" (outside
the set) gets 0; an override of -3 gives 0. -/
theorem C6_amended_witness :
    inventoryCost true (some 5) "COM1" 200 [] = .ok 5 ∧
    inventoryCost false none "COM1" 200
        [{ Occupancy := "COM1", AnnualSalesPerSqFt := 10, BusinessInvPctofSales := 50 }] =
      .ok (10 * 50 * 200 / 100) ∧
    inventoryCost false none "RES1" 200 [] = .ok 0 ∧
    inventoryCost true (some (-3)) "COM1" 200 [] = .ok 0 := by
  refine ⟨?_, ?_, ?_, ?_⟩
  · exact (C6_amended true (some 5) "COM1" 200 []).1 5 (by norm_num)
  · exact (C6_amended false none "COM1" 200
      [{ Occupancy := "COM1", AnnualSalesPerSqFt := 10, BusinessInvPctofSales := 50 }]).2.1
      { Occupancy := "COM1", AnnualSalesPerSqFt := 10, BusinessInvPctofSales := 50 }
      (by simp [Inventory_List]) (Or.inl rfl) (by simp [scanBreak, List.find?_cons])
  · exact (C6_amended false none "RES1" 200 []).2.2.1 (by simp [Inventory_List])
      (Or.inl rfl)
  · exact (C6_amended true (some (-3)) "COM1" 200 []).2.2.2 (-3) (by norm_num)

/-- C7 counterexample: for a RES1 record with basement foundation at depth
exactly -4 the debris bucket is "-4", not the claimed "-8": the code's
first test is the strict `depth < -4`. -/
theorem C7_counterexample :
    debrisDsuf "RES1" "4" (-4) = "-4" ∧ "-4" ≠ "-8" := by
  constructor
  · norm_num [debrisDsuf]
  · decide

/-- C7 amended: for RES1 with basement foundation the buckets are "-8"
when depth < -4 (strictly), "-4" when -4 ≤ depth < 0, "0" when < 4, "4"
when < 6, "6" when < 8, else "8"; for every other record "0" when < 1,
"1" when < 4, "4" when < 8, "8" when < 12, else "12". -/
theorem C7_amended (OC ft : String) (d : ℚ) :
    (OC = "RES1" ∧ ft = "4" →
      (d < -4 → debrisDsuf OC ft d = "-8") ∧
      (-4 ≤ d → d < 0 → debrisDsuf OC ft d = "-4") ∧
      (0 ≤ d → d < 4 → debrisDsuf OC ft d = "0") ∧
      (4 ≤ d → d < 6 → debrisDsuf OC ft d = "4") ∧
      (6 ≤ d → d < 8 → debrisDsuf OC ft d = "6") ∧
      (8 ≤ d → debrisDsuf OC ft d = "8")) ∧
    (¬ (OC = "RES1" ∧ ft = "4") →
      (d < 1 → debrisDsuf OC ft d = "0") ∧
      (1 ≤ d → d < 4 → debrisDsuf OC ft d = "1") ∧
      (4 ≤ d → d < 8 → debrisDsuf OC ft d = "4") ∧
      (8 ≤ d → d < 12 → debrisDsuf OC ft d = "8") ∧
      (12 ≤ d → debrisDsuf OC ft d = "12")) := by
  constructor
  · intro h
    simp only [debrisDsuf, if_pos h]
    refine ⟨fun h1 => ?_, fun h1 h2 => ?_, fun h1 h2 => ?_, fun h1 h2 => ?_,
      fun h1 h2 => ?_, fun h1 => ?_⟩ <;>
      split_ifs <;> first | rfl | linarith
  · intro h
    simp only [debrisDsuf, if_neg h]
    refine ⟨fun h1 => ?_, fun h1 h2 => ?_, fun h1 h2 => ?_, fun h1 h2 => ?_,
      fun h1 => ?_⟩ <;>
      split_ifs <;> first | rfl | linarith

/-- Witness for C7 amended: concrete buckets on both branches. -/
theorem C7_amended_witness :
    debrisDsuf "RES1" "4" (-5) = "-8" ∧ debrisDsuf "RES1" "4" 5 = "4" ∧
    debrisDsuf "COM1" "1" 5 = "4" ∧ debrisDsuf "COM1" "1" 20 = "12" := by
  refine ⟨?_, ?_, ?_, ?_⟩
  · exact ((C7_amended "RES1" "4" (-5)).1 ⟨rfl, rfl⟩).1 (by norm_num)
  · exact ((C7_amended "RES1" "4" 5).1 ⟨rfl, rfl⟩).2.2.2.1 (by norm_num) (by norm_num)
  · exact ((C7_amended "COM1" "1" 5).2 (by simp)).2.2.1 (by norm_num) (by norm_num)
  · exact ((C7_amended "COM1" "1" 20).2 (by simp)).2.2.2.2 (by norm_num)

/-- C8 counterexample: the debris lookup has no early exit; with two rows
sharing the key "K" it returns the SECOND matching row, not the first. -/
theorem C8_counterexample :
    debrisScan
        [{ DebrisID := "K", Finishes := 1, Structure := 0, Foundation := 0 },
         { DebrisID := "K", Finishes := 2, Structure := 0, Foundation := 0 }] "K" =
      some { DebrisID := "K", Finishes := 2, Structure := 0, Foundation := 0 } ∧
    ({ DebrisID := "K", Finishes := 2, Structure := 0, Foundation := 0 } : DebrisRow) ≠
      { DebrisID := "K", Finishes := 1, Structure := 0, Foundation := 0 } := by
  constructor
  · simp [debrisScan]
  · simp only [ne_eq, DebrisRow.mk.injEq]
    norm_num

/-- C8 amended: every lookup except the debris one is a break-on-first-
match scan (`scanBreak`), returning the first matching row; the debris
lookup (`debrisScan`) scans the whole table without a break and returns
the LAST matching row. -/
theorem C8_amended {α : Type} (p : α → Bool) (pre post : List α) (r : α) (key : String)
    (dpre dpost : List DebrisRow) (dr : DebrisRow) :
    ((∀ x ∈ pre, p x = false) → p r = true → scanBreak p (pre ++ r :: post) = some r) ∧
    (dr.DebrisID = key → (∀ x ∈ dpost, x.DebrisID ≠ key) →
      debrisScan (dpre ++ dr :: dpost) key = some dr) := by
  constructor
  · intro hpre hr
    induction pre with
    | nil => simp [scanBreak, List.find?_cons, hr]
    | cons a tl ih =>
      have ha : p a = false := hpre a (by simp)
      have htl : ∀ x ∈ tl, p x = false := fun x hx => hpre x (by simp [hx])
      simp only [scanBreak, List.cons_append, List.find?_cons, ha]
      exact ih htl
  · intro hr hpost
    have hkeep : ∀ (l : List DebrisRow) (acc : Option DebrisRow),
        (∀ x ∈ l, x.DebrisID ≠ key) →
        l.foldl (fun acc r => if r.DebrisID = key then some r else acc) acc = acc := by
      intro l
      induction l with
      | nil => intro acc _; rfl
      | cons a tl ih =>
        intro acc hl
        have ha : a.DebrisID ≠ key := hl a (by simp)
        have htl : ∀ x ∈ tl, x.DebrisID ≠ key := fun x hx => hl x (by simp [hx])
        simp only [List.foldl_cons, if_neg ha]
        exact ih acc htl
    simp only [debrisScan, List.foldl_append, List.foldl_cons, if_pos hr]
    exact hkeep dpost (some dr) hpost

/-- Witness for C8 amended: first-match on a concrete two-row restoration
table; last-match on a concrete two-row debris table. -/
theorem C8_amended_witness :
    scanBreak (fun r : RestRow => r.RestFnID = "A")
        [{ RestFnID := "A", Min_Restor_Days := 1, Max_Restor_Days := 2 },
         { RestFnID := "A", Min_Restor_Days := 3, Max_Restor_Days := 4 }] =
      some { RestFnID := "A", Min_Restor_Days := 1, Max_Restor_Days := 2 } ∧
    debrisScan
        [{ DebrisID := "K", Finishes := 1, Structure := 0, Foundation := 0 },
         { DebrisID := "K", Finishes := 2, Structure := 0, Foundation := 0 }] "K" =
      some { DebrisID := "K", Finishes := 2, Structure := 0, Foundation := 0 } := by
  constructor
  · exact (C8_amended (fun r : RestRow => r.RestFnID = "A") []
      [{ RestFnID := "A", Min_Restor_Days := 3, Max_Restor_Days := 4 }]
      { RestFnID := "A", Min_Restor_Days := 1, Max_Restor_Days := 2 } "K" [] []
      { DebrisID := "K", Finishes := 1, Structure := 0, Foundation := 0 }).1
      (by intro x hx; simp at hx) (by simp)
  · exact (C8_amended (fun r : RestRow => r.RestFnID = "A") [] []
      { RestFnID := "A", Min_Restor_Days := 1, Max_Restor_Days := 2 } "K"
      [{ DebrisID := "K", Finishes := 1, Structure := 0, Foundation := 0 }] []
      { DebrisID := "K", Finishes := 2, Structure := 0, Foundation := 0 }).2
      rfl (by intro x hx; simp at hx)

/-- C9: with the content-cost column present, a supplied value of exactly
-1 is indistinguishable from null — both give the default
buildingCost * occupancyMultiplier — while every other supplied value
(zero and other negatives included) is used verbatim. -/
theorem C9_content_sentinel (cost : ℚ) (OC : String) (v : ℚ) (hv : v ≠ -1) :
    contentCost true (some (-1)) cost OC = cost * CMult OC ∧
    contentCost true none cost OC = cost * CMult OC ∧
    contentCost true (some v) cost OC = v := by
  refine ⟨by simp [contentCost], by simp [contentCost], ?_⟩
  simp [contentCost, hv]

/-- Witness for C9 at concrete values: -1 and null both give 50 for cost
100 and class "RES1"; the distinct negative value -2 and the value 0 are
used verbatim. -/
theorem C9_content_sentinel_witness :
    contentCost true (some (-1)) 100 "RES1" = 100 * CMult "RES1" ∧
    contentCost true (some (-2)) 100 "RES1" = -2 ∧
    contentCost true (some 0) 100 "RES1" = 0 := by
  refine ⟨(C9_content_sentinel 100 "RES1" (-2) (by norm_num)).1, ?_, ?_⟩
  · exact (C9_content_sentinel 100 "RES1" (-2) (by norm_num)).2.2
  · exact (C9_content_sentinel 100 "RES1" 0 (by norm_num)).2.2

/-- C2: for every record whose raw sampled elevation is null or whose
adjusted depth is below -500, the processor short-circuits: the result
does not depend on any damage-function, debris or restoration table (none
of those lookups nor the interpolation runs; only the economic-parameters
scan inside the inventory cost basis runs, see C10), and the output
record has exposure 0, all three DDF ids and loss percentages and loss
amounts 0, adjusted depth null, debris id empty, the four debris tonnage
fields null, and both restoration-day fields 0. -/
theorem C2_not_exposed (f : Flags) (t t2 : Tables) (rec : InRow)
    (hiec : t.iecon_lut = t2.iecon_lut)
    (h : rec.Depth_Grid = none ∨
      ∃ rv, rec.Depth_Grid = some rv ∧ rv - rec.FirstFloorHt < -500) :
    processRecord f t rec = processRecord f t2 rec ∧
    processRecord f t rec =
      Except.map (fun icost => ProcResult.mk
        { flExp := 0, Depth_in_Struc := none,
          SOID := specificOccupId (pyStrip rec.OccupancyClass)
            (pyStrip rec.FoundationType) rec.NumStories,
          BDDF_ID := .num 0, BldgDmgPct := 0, BldgLossUSD := 0,
          ContentCostUSD :=
            contentCost f.uccost rec.ContentCost rec.Cost (pyStrip rec.OccupancyClass),
          CDDF_ID := .num 0, ContDmgPct := 0, ContentLossUSD := 0,
          InventoryCostUSD := icost, IDDF_ID := .num 0, InvDmgPct := 0,
          InventoryLossUSD := 0,
          DebrisID := "", Debris_Fin := none, Debris_Struc := none,
          Debris_Found := none, Debris_Tot := none,
          Restor_Days_Min := 0, Restor_Days_Max := 0 } [])
        (inventoryCost f.uicost rec.InvCost (pyStrip rec.OccupancyClass)
          rec.Area t.iecon_lut) := by
  have key : ∀ tt : Tables, tt.iecon_lut = t.iecon_lut →
      processRecord f tt rec =
        Except.map (fun icost => ProcResult.mk
          { flExp := 0, Depth_in_Struc := none,
            SOID := specificOccupId (pyStrip rec.OccupancyClass)
              (pyStrip rec.FoundationType) rec.NumStories,
            BDDF_ID := .num 0, BldgDmgPct := 0, BldgLossUSD := 0,
            ContentCostUSD :=
              contentCost f.uccost rec.ContentCost rec.Cost (pyStrip rec.OccupancyClass),
            CDDF_ID := .num 0, ContDmgPct := 0, ContentLossUSD := 0,
            InventoryCostUSD := icost, IDDF_ID := .num 0, InvDmgPct := 0,
            InventoryLossUSD := 0,
            DebrisID := "", Debris_Fin := none, Debris_Struc := none,
            Debris_Found := none, Debris_Tot := none,
            Restor_Days_Min := 0, Restor_Days_Max := 0 } [])
          (inventoryCost f.uicost rec.InvCost (pyStrip rec.OccupancyClass)
            rec.Area t.iecon_lut) := by
    intro tt htt
    simp only [processRecord, htt]
    cases hI : inventoryCost f.uicost rec.InvCost (pyStrip rec.OccupancyClass)
        rec.Area t.iecon_lut with
    | error e => simp [Except.map]
    | ok ic =>
      rcases h with hn | ⟨rv, hrv, hlt⟩
      · rw [hn]
        simp [Except.map, notExposedRow]
      · rw [hrv]
        simp only [if_pos hlt]
        simp [Except.map, notExposedRow]
  exact ⟨(key t rfl).trans (key t2 hiec.symm).symm, key t rfl⟩

/-- Witness for C2: a concrete record with null sampled elevation, under
two table environments differing in every damage-function table. -/
theorem C2_not_exposed_witness :
    processRecord offFlags tablesX0 recNE = processRecord offFlags tablesX recNE ∧
    processRecord offFlags tablesX0 recNE =
      Except.map (fun icost => ProcResult.mk
        { flExp := 0, Depth_in_Struc := none,
          SOID := specificOccupId (pyStrip recNE.OccupancyClass)
            (pyStrip recNE.FoundationType) recNE.NumStories,
          BDDF_ID := .num 0, BldgDmgPct := 0, BldgLossUSD := 0,
          ContentCostUSD := contentCost offFlags.uccost recNE.ContentCost recNE.Cost
            (pyStrip recNE.OccupancyClass),
          CDDF_ID := .num 0, ContDmgPct := 0, ContentLossUSD := 0,
          InventoryCostUSD := icost, IDDF_ID := .num 0, InvDmgPct := 0,
          InventoryLossUSD := 0,
          DebrisID := "", Debris_Fin := none, Debris_Struc := none,
          Debris_Found := none, Debris_Tot := none,
          Restor_Days_Min := 0, Restor_Days_Max := 0 } [])
        (inventoryCost offFlags.uicost recNE.InvCost (pyStrip recNE.OccupancyClass)
          recNE.Area tablesX0.iecon_lut) := by
  exact C2_not_exposed offFlags tablesX0 tablesX recNE rfl (Or.inl rfl)

/-- In every successful run of the exposed branch, the content and
inventory cost bases computed before the exposure check are written to
the output row unchanged. -/
theorem exposedCase_cost_fields (f : Flags) (t : Tables) (rec : InRow)
    (OC foundationType SOID0 CZC : String) (area ccost icost depth0 : ℚ)
    (res : ProcResult)
    (h : exposedCase f t rec OC foundationType SOID0 CZC area ccost icost depth0 =
      .ok res) :
    res.row.ContentCostUSD = ccost ∧ res.row.InventoryCostUSD = icost := by
  simp only [exposedCase] at h
  split at h
  · exact absurd h (by simp)
  · split at h
    · exact absurd h (by simp)
    · split at h
      · exact absurd h (by simp)
      · split at h
        · exact absurd h (by simp)
        · split at h
          · exact absurd h (by simp)
          · injection h with h'
            subst h'
            exact ⟨rfl, rfl⟩

/-- C10: the content-cost and inventory-cost output fields are computed
and written for every record that produces an output row, exposed or not:
whenever the processor returns a row, its ContentCostUSD field is exactly
the content cost basis and its InventoryCostUSD field exactly the
inventory cost basis computed from the input record before the exposure
check; the not-exposed short-circuit leaves them in place while zeroing
only the loss, DDF-id, debris and restoration fields. -/
theorem C10_cost_fields (f : Flags) (t : Tables) (rec : InRow) (res : ProcResult)
    (h : processRecord f t rec = .ok res) :
    res.row.ContentCostUSD =
      contentCost f.uccost rec.ContentCost rec.Cost (pyStrip rec.OccupancyClass) ∧
    inventoryCost f.uicost rec.InvCost (pyStrip rec.OccupancyClass) rec.Area t.iecon_lut =
      .ok res.row.InventoryCostUSD := by
  simp only [processRecord] at h
  cases hI : inventoryCost f.uicost rec.InvCost (pyStrip rec.OccupancyClass)
      rec.Area t.iecon_lut with
  | error e =>
    simp only [hI] at h
    exact absurd h (by simp)
  | ok ic =>
    simp only [hI] at h
    cases hd : rec.Depth_Grid with
    | none =>
      simp only [hd] at h
      injection h with h'
      subst h'
      exact ⟨rfl, rfl⟩
    | some rv =>
      simp only [hd] at h
      by_cases hlt : rv - rec.FirstFloorHt < -500
      · rw [if_pos hlt] at h
        injection h with h'
        subst h'
        exact ⟨rfl, rfl⟩
      · rw [if_neg hlt] at h
        obtain ⟨h1, h2⟩ := exposedCase_cost_fields _ _ _ _ _ _ _ _ _ _ _ _ h
        refine ⟨h1, ?_⟩
        rw [h2]

/-- Witness for C10: a concrete not-exposed record whose output row still
carries the computed cost bases (content 100 * 0.5 = 50 for "RES4", and
inventory 0 since "RES4" has no default inventory and no override). -/
theorem C10_cost_fields_witness :
    processRecord offFlags emptyTables recNE =
      .ok (ProcResult.mk (notExposedRow "R4LN" 50 0) []) ∧
    (ProcResult.mk (notExposedRow "R4LN" 50 0) []).row.ContentCostUSD =
      contentCost offFlags.uccost recNE.ContentCost recNE.Cost
        (pyStrip recNE.OccupancyClass) ∧
    inventoryCost offFlags.uicost recNE.InvCost (pyStrip recNE.OccupancyClass)
        recNE.Area emptyTables.iecon_lut =
      .ok (ProcResult.mk (notExposedRow "R4LN" 50 0) []).row.InventoryCostUSD := by
  have hps : pyStrip recNE.OccupancyClass = "RES4" := rfl
  have hpf : pyStrip recNE.FoundationType = "1" := rfl
  have hsoid : specificOccupId "RES4" "1" recNE.NumStories = "R4LN" := rfl
  have hI : inventoryCost offFlags.uicost recNE.InvCost "RES4" recNE.Area
      emptyTables.iecon_lut = .ok 0 := by
    simp [inventoryCost, Inventory_List, offFlags, recNE, emptyTables]
  have hcc : contentCost offFlags.uccost recNE.ContentCost recNE.Cost "RES4" = 50 := by
    norm_num [contentCost, CMult, Content_x_0p5, offFlags, recNE]
  have hp : processRecord offFlags emptyTables recNE =
      .ok (ProcResult.mk (notExposedRow "R4LN" 50 0) []) := by
    simp only [processRecord, hps, hpf, hsoid, hI, hcc]
    simp [recNE]
  exact ⟨hp, (C10_cost_fields _ _ _ _ hp).1, (C10_cost_fields _ _ _ _ hp).2⟩

/-- C3 counterexample: an exposed "COM1" record whose building and content
default lookups succeed but whose default inventory table has no matching
row makes the whole run abort (`sys.exit(2)` at line 733) — the claim
that only the building lookup aborts and that an inventory miss is a
recorded warning with the batch continuing is false. -/
theorem C3_counterexample :
    processRecord offFlags tablesX recX = .error (.invMiss "C1LN") := by
  have hps : pyStrip recX.OccupancyClass = "COM1" := rfl
  have hpf : pyStrip recX.FoundationType = "1" := rfl
  have hsoid : specificOccupId "COM1" "1" recX.NumStories = "C1LN" := rfl
  have hI : inventoryCost offFlags.uicost recX.InvCost "COM1" recX.Area
      tablesX.iecon_lut = .ok (10 * 50 * 100 / 100) := by
    simp [inventoryCost, Inventory_List, offFlags, recX, tablesX, scanBreak]
  have hns : ¬ ((2 : ℚ) - 0 < -500) := by norm_num
  have hb : bldgResolve offFlags tablesX none "COM1" "C1LN" "" = .ok (bRowX, .str "B7") := by
    simp [bldgResolve, bldgDefault, qcBadIdCheck, lutForBldg, offFlags, tablesX,
      scanBreak, bRowX]
  have hc : contResolve offFlags tablesX none "COM1" "C1LN" "" (bRowX, .str "B7") =
      .ok ((cRowX, .str "C7"), []) := by
    simp [contResolve, contDefault, qcBadIdCheck, lutForCont, offFlags, tablesX,
      scanBreak, cRowX]
  have hi : invResolve offFlags tablesX none "COM1" "C1LN"
      (clampDepth ((2 : ℚ) - 0)) = .error (.invMiss "C1LN") := by
    simp [invResolve, invDefault, qcBadIdCheck, Inventory_List, offFlags, tablesX,
      scanBreak]
  simp only [processRecord, hps, hpf, hsoid, hI]
  simp only [recX]
  rw [if_neg hns]
  simp only [exposedCase, ite_self, hb, hc, hi]

/-- C3 amended: a default-table miss terminates the run for ALL three
lookups — none is a recoverable per-record warning.  Building and
inventory record `arcpy.AddError` and call `sys.exit(2)` (lines 570-574
and 729-733); the content miss records `arcpy.AddError` (line 655) but
then the sentinel assignment at line 670 rebinds the CDDF_ID field-name
variable to -9999, the `row.setValue` at line 672 raises, and the
function-wide handler ends the run. -/
theorem C3_amended (f : Flags) (t : Tables) (OC SOID CZC : String)
    (stale : DDFRow × IdVal) (depth : ℚ)
    (hb : scanBreak (fun r => r.SpecificOccupId = SOID) (lutForBldg f t OC CZC) = none)
    (hc : scanBreak (fun r => r.SpecificOccupId = SOID) (lutForCont f t OC CZC) = none)
    (hOC : OC ∈ Inventory_List)
    (hi : scanBreak (fun r => r.SpecificOccupId = SOID) t.iddf_lut_riverine = none) :
    bldgResolve f t none OC SOID CZC = .error (.bldgMiss SOID) ∧
    contResolve f t none OC SOID CZC stale = .error (.contMiss SOID) ∧
    invResolve f t none OC SOID depth = .error (.invMiss SOID) := by
  refine ⟨?_, ?_, ?_⟩
  · simp [bldgResolve, bldgDefault, qcBadIdCheck, hb]
  · simp [contResolve, contDefault, qcBadIdCheck, hc]
  · simp [invResolve, invDefault, qcBadIdCheck, hOC, hi]

/-- Witness for C3 amended at concrete inputs: empty default tables, the
eligible class "COM1", key "C1LN". -/
theorem C3_amended_witness :
    bldgResolve offFlags emptyTables none "COM1" "C1LN" "" =
      .error (.bldgMiss "C1LN") ∧
    contResolve offFlags emptyTables none "COM1" "C1LN" "" (bRowX, .str "B7") =
      .error (.contMiss "C1LN") ∧
    invResolve offFlags emptyTables none "COM1" "C1LN" 2 = .error (.invMiss "C1LN") :=
  C3_amended offFlags emptyTables "COM1" "C1LN" "" (bRowX, .str "B7") 2
    rfl rfl (by simp [Inventory_List]) rfl

end Hazus
